import Mathlib

/-!
Shallow embedding of DashCryptoCharts.py (the CryptoChart class and the
displayCandleStick callback) together with theorems checking the design
specification against it.

Modelling conventions:
- Prices and all table cells are rationals; the pandas rolling standard
  deviation is the real square root of the rational sample variance.
- A pandas Series with NaN warm-up entries is a list of Option values;
  None is the explicit missing marker.
- The mutable CryptoChart object is split into ChartCfg (the fields set
  once in the constructor: url, interval, startTime, endTime, limit) and
  ChartState (the session state read by the presentation layer: the
  active symbol and the active data frame).
- Clock readings are integer seconds since the epoch; datetime.now() at
  construction time is a parameter of initCfg.  The Python code stores
  startTime, endTime and limit as decimal strings; we keep the integer
  values they encode.
- A fetch outcome is a Response: a transport error raised by the request
  library (not a ValueError), a body that json.loads rejects
  (json.JSONDecodeError is a ValueError), a parsed body that the
  pandas DataFrame constructor rejects with a ValueError (for example the
  all-scalar JSON object Binance returns for an unknown symbol), or a
  parsed rectangular JSON array of arrays of numeric values.
- A Python call either returns normally or lets an exception escape; the
  mutations to the object performed before the raise persist, so both
  outcomes carry the resulting ChartState.
-/

/-- Candle table with the six named source columns, the derived date
index, and the indicator columns added by movingAverages.  Indicator
cells are Option values: none is the NaN missing marker. -/
structure Frame where
  dateCol : List ℚ
  openCol : List ℚ
  highCol : List ℚ
  lowCol : List ℚ
  closeCol : List ℚ
  volumeCol : List ℚ
  idx : List ℤ
  ma21 : List (Option ℚ)
  ma50 : List (Option ℚ)
  ma100 : List (Option ℚ)
  ma200 : List (Option ℚ)
  tp : List ℚ
  std : List (Option ℝ)
  bolu : List (Option ℝ)
  bold : List (Option ℝ)

/-- Data frame slot of the session object.  After a response that parses
into a DataFrame but fails the six-column rename, self.df is left holding
the unnamed sliced frame: the raw constructor records that corrupt state. -/
inductive DF
  | proper (f : Frame)
  | raw (rows : List (List ℚ))

/-- Session state exposed to the presentation layer: the active symbol
and the active data frame. -/
structure ChartState where
  symbol : String
  df : DF

/-- Constructor-time configuration of the CryptoChart object. -/
structure ChartCfg where
  url : String
  interval : String
  startTime : ℤ
  endTime : ℤ
  limit : String
deriving DecidableEq

/-- Query parameters of one outbound request, as built on lines 45-50. -/
structure ReqParams where
  symbol : String
  interval : String
  startTime : ℤ
  endTime : ℤ
  limit : String
deriving DecidableEq

/-- Outcome of requests.get followed by json.loads and pd.DataFrame. -/
inductive Response
  | transportError
  | unparseable
  | unframeable
  | table (rows : List (List ℚ))

/-- Result of a Python call: a normal return, or an escaped exception;
both carry the session state after the call, since attribute mutations
made before a raise persist. -/
inductive FillResult
  | ok (st : ChartState)
  | raised (st : ChartState)

/-- Configuration built by CryptoChart.__init__ from the construction
time now0 (integer seconds since the epoch): interval 1d, a start time
1000 days before now0 and an end time of now0, both scaled to
milliseconds, and a record limit of 1000. -/
def initCfg (now0 : ℤ) : ChartCfg :=
  { url := "https://api.binance.com/api/v3/klines"
  , interval := "1d"
  , startTime := (now0 - 1000 * 86400) * 1000
  , endTime := now0 * 1000
  , limit := "1000" }

/-- Request parameter dictionary built on lines 45-50 from the stored
configuration and the requested symbol. -/
def requestParams (cfg : ChartCfg) (sym : String) : ReqParams :=
  { symbol := sym
  , interval := cfg.interval
  , startTime := cfg.startTime
  , endTime := cfg.endTime
  , limit := cfg.limit }

/-- Number of columns pandas infers for a DataFrame built from a list of
rows: the maximal row length. -/
def dfWidth (rows : List (List ℚ)) : Nat :=
  rows.foldr (fun r acc => max r.length acc) 0

/-- Named frame built from the six retained columns (lines 55-58): the
column rename and the date index derived from the millisecond open time. -/
def framify (rows : List (List ℚ)) : Frame :=
  { dateCol := rows.map (fun r => r.getD 0 0)
  , openCol := rows.map (fun r => r.getD 1 0)
  , highCol := rows.map (fun r => r.getD 2 0)
  , lowCol := rows.map (fun r => r.getD 3 0)
  , closeCol := rows.map (fun r => r.getD 4 0)
  , volumeCol := rows.map (fun r => r.getD 5 0)
  , idx := rows.map (fun r => Rat.floor (r.getD 0 0 / 86400000))
  , ma21 := [], ma50 := [], ma100 := [], ma200 := []
  , tp := [], std := [], bolu := [], bold := [] }

/-- Rolling arithmetic mean with window n, the model of
Series.rolling(window=n).mean(): position i carries the mean of the n
trailing values when i+1 is at least n, and the NaN marker otherwise. -/
def rollingMean (n : Nat) (xs : List ℚ) : List (Option ℚ) :=
  (List.range xs.length).map (fun i =>
    if n ≤ i + 1 then some (((xs.drop (i + 1 - n)).take n).sum / (n : ℚ)) else none)

/-- Unbiased sample variance of a list of rationals, the variance pandas
uses with its default ddof of 1. -/
def sampleVar (xs : List ℚ) : ℚ :=
  ((xs.map (fun x => (x - xs.sum / (xs.length : ℚ)) ^ 2)).sum) / ((xs.length : ℚ) - 1)

/-- Rolling sample standard deviation with window n, the model of
Series.rolling(window=n).std(): the real square root of the unbiased
sample variance of the n trailing values, NaN during warm-up. -/
noncomputable def rollingStd (n : Nat) (xs : List ℚ) : List (Option ℝ) :=
  (List.range xs.length).map (fun i =>
    if n ≤ i + 1 then
      some (Real.sqrt ((sampleVar ((xs.drop (i + 1 - n)).take n) : ℚ) : ℝ))
    else none)

/-- Typical price column (line 81): per-row (Close + High + Low) / 3. -/
def tpCol (cl hi lo : List ℚ) : List ℚ :=
  (List.range cl.length).map (fun i => (cl.getD i 0 + hi.getD i 0 + lo.getD i 0) / 3)

/-- Bollinger band column (lines 83-84): the 20-window rolling mean of
the TP column plus c times the stored STD column, elementwise with NaN
propagation; c is 2 for BOLU and -2 for BOLD. -/
noncomputable def bandCol (c : ℝ) (tp : List ℚ) (stdc : List (Option ℝ)) : List (Option ℝ) :=
  (List.range tp.length).map (fun i =>
    ((rollingMean 20 tp).getD i none).bind (fun m =>
      (stdc.getD i none).map (fun s => (m : ℝ) + c * s)))

/-- CryptoChart.movingAverages (lines 63-84): sequentially attaches the
four moving-average columns, the TP column, the rolling STD of TP, and
the two Bollinger band columns to the frame. -/
noncomputable def movingAverages (f : Frame) : Frame :=
  let f1 := { f with ma21 := rollingMean 21 f.closeCol }
  let f2 := { f1 with ma50 := rollingMean 50 f1.closeCol }
  let f3 := { f2 with ma100 := rollingMean 100 f2.closeCol }
  let f4 := { f3 with ma200 := rollingMean 200 f3.closeCol }
  let f5 := { f4 with tp := tpCol f4.closeCol f4.highCol f4.lowCol }
  let f6 := { f5 with std := rollingStd 20 f5.tp }
  let f7 := { f6 with bolu := bandCol 2 f6.tp f6.std }
  let f8 := { f7 with bold := bandCol (-2) f7.tp f7.std }
  f8

/-- CryptoChart.fillDataFrame (lines 40-62).  The old symbol is saved,
the symbol attribute and the request parameters are set, and the request
is issued.  A transport error is not a ValueError, so it escapes with the
symbol already overwritten.  A body json.loads or pd.DataFrame rejects
raises a ValueError before self.df is assigned, so the caught handler
restores the symbol and the frame is untouched.  A parsed table is
assigned to self.df and sliced to its first six columns; if it has fewer
than six columns the rename on line 57 raises a ValueError after the
assignment, so the handler restores the symbol but leaves the sliced
unnamed frame installed.  With six or more columns the rename, the date
index and movingAverages complete and the call returns normally.  The
second component is the parameter dictionary of the single request
issued by the call. -/
noncomputable def fillDataFrame (cfg : ChartCfg) (st : ChartState) (symbol : String)
    (resp : Response) : FillResult × ReqParams :=
  let oldSymbol := st.symbol
  let params := requestParams cfg symbol
  match resp with
  | .transportError => (.raised { symbol := symbol, df := st.df }, params)
  | .unparseable => (.ok { symbol := oldSymbol, df := st.df }, params)
  | .unframeable => (.ok { symbol := oldSymbol, df := st.df }, params)
  | .table rows =>
      let sliced := rows.map (List.take 6)
      if 6 ≤ dfWidth rows then
        (.ok { symbol := symbol, df := .proper (movingAverages (framify sliced)) }, params)
      else
        (.ok { symbol := oldSymbol, df := .raw sliced }, params)

/-- State-update portion of the displayCandleStick callback (lines
149-152): a non-None symbol input is upper-cased, suffixed with USDT and
passed to fillDataFrame; a None input leaves the state alone and issues
no request.  The second component is the request issued, if any. -/
noncomputable def displayCandleStick (cfg : ChartCfg) (st : ChartState)
    (value : Option String) (resp : Response) : FillResult × Option ReqParams :=
  match value with
  | some v =>
      let r := fillDataFrame cfg st (v.toUpper ++ "USDT") resp
      (r.1, some r.2)
  | none => (.ok st, none)

/-- Naive recomputation of the n-window arithmetic mean ending at row i,
written from the words of the specification: the mean of the close
values at rows i-n+1 through i. -/
def naiveMean (xs : List ℚ) (n i : Nat) : ℚ :=
  (((List.range n).map (fun k => xs.getD (i + 1 - n + k) 0)).sum) / (n : ℚ)

/-- Trailing window of n values ending at row i, read off by index. -/
def trailing (xs : List ℚ) (n i : Nat) : List ℚ :=
  (List.range n).map (fun k => xs.getD (i + 1 - n + k) 0)

/-- Unbiased sample standard deviation of the trailing 20 values ending
at row i, written from the words of the specification: the square root
of the squared deviations from the window mean summed and divided by
n - 1 = 19. -/
noncomputable def trailingSampleStd (xs : List ℚ) (i : Nat) : ℝ :=
  Real.sqrt ((((trailing xs 20 i).map
    (fun x => (x - (trailing xs 20 i).sum / 20) ^ 2)).sum / 19 : ℚ))

/-- Concrete 25-row table whose close column is 100..124. -/
def rows25 : List (List ℚ) :=
  (List.range 25).map (fun k => [(k : ℚ), 100 + k, 100 + k, 100 + k, 100 + k, 1])

/-- Frame of rows25. -/
def f25 : Frame := framify rows25

/-- Concrete 20-row table with non-constant prices. -/
def rows20 : List (List ℚ) :=
  (List.range 20).map (fun k => [(k : ℚ), (k : ℚ), (k : ℚ) + 2, (k : ℚ), (k : ℚ) + 1, 1])

/-- Frame of rows20. -/
def f20 : Frame := framify rows20

/-- Concrete single complete six-field record. -/
def rows6E : List (List ℚ) := [[0, 1, 2, 3, 4, 5]]

/-- Concrete five-field record: a response row missing the volume field. -/
def row5 : List ℚ := [1000, 1, 2, 3, 4]

/-- Concrete active session state holding symbol BTCUSDT and a table. -/
def st0 : ChartState :=
  { symbol := "BTCUSDT", df := .proper (framify [[0, 1, 2, 3, 4, 5]]) }

/-- Concrete session state whose active symbol is already ETHUSDT. -/
def stSame : ChartState :=
  { symbol := "ETHUSDT", df := .proper (framify [[0, 9, 9, 9, 9, 9]]) }

/-- Projection of a getD read through a map over List.range. -/
theorem range_map_getD {α : Type} (L : Nat) (f : Nat → Option α) (i : Nat) :
    ((List.range L).map f).getD i none = if i < L then f i else none := by
  by_cases h : i < L
  · rw [List.getD_eq_getElem?_getD, List.getElem?_map, List.getElem?_range h]
    simp [h]
  · rw [List.getD_eq_getElem?_getD, List.getElem?_eq_none]
    · simp [h]
    · simpa using Nat.le_of_not_lt h

/-- Projection of a rational getD read through a map over List.range. -/
theorem range_map_getD_rat (L : Nat) (f : Nat → ℚ) (i : Nat) (h : i < L) :
    ((List.range L).map f).getD i 0 = f i := by
  rw [List.getD_eq_getElem?_getD, List.getElem?_map, List.getElem?_range h]
  rfl

/-- Window slice of a list as an indexed read of its entries. -/
theorem take_drop_eq (xs : List ℚ) (m : Nat) :
    ∀ n, m + n ≤ xs.length →
      (xs.drop m).take n = (List.range n).map (fun k => xs.getD (m + k) 0) := by
  intro n
  induction n with
  | zero => intro _; simp
  | succ n ih =>
      intro h
      have hmn : m + n < xs.length := by omega
      have h1 : (xs.drop m)[n]? = some (xs.getD (m + n) 0) := by
        rw [List.getElem?_drop, List.getElem?_eq_getElem (by omega),
          List.getD_eq_getElem xs 0 hmn]
      rw [List.take_succ, ih (by omega), h1, List.range_succ, List.map_append]
      rfl

/-- Length of the rolling mean column. -/
theorem rollingMean_length (n : Nat) (xs : List ℚ) :
    (rollingMean n xs).length = xs.length := by
  simp [rollingMean]

/-- Length of the rolling standard deviation column. -/
theorem rollingStd_length (n : Nat) (xs : List ℚ) :
    (rollingStd n xs).length = xs.length := by
  simp [rollingStd]

/-- Length of the typical price column. -/
theorem tpCol_length (cl hi lo : List ℚ) : (tpCol cl hi lo).length = cl.length := by
  simp [tpCol]

/-- Warm-up positions of the rolling mean are missing-marked. -/
theorem rollingMean_warmup (n : Nat) (xs : List ℚ) (i : Nat) (h : i + 1 < n) :
    (rollingMean n xs).getD i none = none := by
  rw [rollingMean, range_map_getD]
  split_ifs with h1 h2
  · omega
  · rfl
  · rfl

/-- Warm-up positions of the rolling standard deviation are missing-marked. -/
theorem rollingStd_warmup (n : Nat) (xs : List ℚ) (i : Nat) (h : i + 1 < n) :
    (rollingStd n xs).getD i none = none := by
  rw [rollingStd, range_map_getD]
  split_ifs with h1 h2
  · omega
  · rfl
  · rfl

/-- Warm-up positions of a Bollinger band column are missing-marked. -/
theorem bandCol_warmup (c : ℝ) (tp : List ℚ) (stdc : List (Option ℝ)) (i : Nat)
    (h : i + 1 < 20) : (bandCol c tp stdc).getD i none = none := by
  rw [bandCol, range_map_getD]
  split_ifs with h1
  · rw [rollingMean_warmup 20 tp i h, Option.none_bind]
  · rfl

/-- Every entry of the rolling mean of a short list is missing-marked. -/
theorem rollingMean_short (n : Nat) (xs : List ℚ) (h : xs.length < n) :
    ∀ x ∈ rollingMean n xs, x = none := by
  intro x hx
  rw [rollingMean] at hx
  simp only [List.mem_map, List.mem_range] at hx
  obtain ⟨i, hi, rfl⟩ := hx
  rw [if_neg (by omega)]

/-- Every entry of the rolling standard deviation of a short list is
missing-marked. -/
theorem rollingStd_short (n : Nat) (xs : List ℚ) (h : xs.length < n) :
    ∀ x ∈ rollingStd n xs, x = none := by
  intro x hx
  rw [rollingStd] at hx
  simp only [List.mem_map, List.mem_range] at hx
  obtain ⟨i, hi, rfl⟩ := hx
  rw [if_neg (by omega)]

/-- Every entry of a Bollinger band column over a short TP column is
missing-marked. -/
theorem bandCol_short (c : ℝ) (tp : List ℚ) (stdc : List (Option ℝ))
    (h : tp.length < 20) : ∀ x ∈ bandCol c tp stdc, x = none := by
  intro x hx
  rw [bandCol] at hx
  simp only [List.mem_map, List.mem_range] at hx
  obtain ⟨i, hi, rfl⟩ := hx
  rw [rollingMean_warmup 20 tp i (by omega), Option.none_bind]

/-- Field ma21 of movingAverages. -/
theorem movingAverages_ma21 (f : Frame) :
    (movingAverages f).ma21 = rollingMean 21 f.closeCol := rfl

/-- Field ma50 of movingAverages. -/
theorem movingAverages_ma50 (f : Frame) :
    (movingAverages f).ma50 = rollingMean 50 f.closeCol := rfl

/-- Field ma100 of movingAverages. -/
theorem movingAverages_ma100 (f : Frame) :
    (movingAverages f).ma100 = rollingMean 100 f.closeCol := rfl

/-- Field ma200 of movingAverages. -/
theorem movingAverages_ma200 (f : Frame) :
    (movingAverages f).ma200 = rollingMean 200 f.closeCol := rfl

/-- Field tp of movingAverages. -/
theorem movingAverages_tp (f : Frame) :
    (movingAverages f).tp = tpCol f.closeCol f.highCol f.lowCol := rfl

/-- Field std of movingAverages. -/
theorem movingAverages_std (f : Frame) :
    (movingAverages f).std = rollingStd 20 (tpCol f.closeCol f.highCol f.lowCol) := rfl

/-- Field bolu of movingAverages. -/
theorem movingAverages_bolu (f : Frame) :
    (movingAverages f).bolu = bandCol 2 (tpCol f.closeCol f.highCol f.lowCol)
      (rollingStd 20 (tpCol f.closeCol f.highCol f.lowCol)) := rfl

/-- Field bold of movingAverages. -/
theorem movingAverages_bold (f : Frame) :
    (movingAverages f).bold = bandCol (-2) (tpCol f.closeCol f.highCol f.lowCol)
      (rollingStd 20 (tpCol f.closeCol f.highCol f.lowCol)) := rfl

/-- Field closeCol of movingAverages. -/
theorem movingAverages_closeCol (f : Frame) :
    (movingAverages f).closeCol = f.closeCol := rfl

/-- Value of the rolling mean past warm-up: the naive mean of the rows
from i-n+1 through i. -/
theorem rollingMean_getD_value (n : Nat) (xs : List ℚ) (i : Nat)
    (h1 : n ≤ i + 1) (h2 : i < xs.length) :
    (rollingMean n xs).getD i none = some (naiveMean xs n i) := by
  have hw : (xs.drop (i + 1 - n)).take n =
      (List.range n).map (fun k => xs.getD (i + 1 - n + k) 0) :=
    take_drop_eq xs (i + 1 - n) n (by omega)
  rw [rollingMean, range_map_getD, if_pos h2, if_pos h1, hw, naiveMean]

/-- Value of the rolling standard deviation past warm-up. -/
theorem rollingStd_getD_value (n : Nat) (xs : List ℚ) (i : Nat)
    (h1 : n ≤ i + 1) (h2 : i < xs.length) :
    (rollingStd n xs).getD i none =
      some (Real.sqrt ((sampleVar ((xs.drop (i + 1 - n)).take n) : ℚ) : ℝ)) := by
  rw [rollingStd, range_map_getD, if_pos h2, if_pos h1]

/-- Value of a Bollinger band column past warm-up given the values of
its two inputs. -/
theorem bandCol_getD_value (c : ℝ) (tp : List ℚ) (stdc : List (Option ℝ)) (i : Nat)
    (m : ℚ) (s : ℝ) (h2 : i < tp.length)
    (hm : (rollingMean 20 tp).getD i none = some m)
    (hs : stdc.getD i none = some s) :
    (bandCol c tp stdc).getD i none = some ((m : ℝ) + c * s) := by
  rw [bandCol, range_map_getD, if_pos h2, hm, hs]
  rfl

/-- Normal-return behaviour of fillDataFrame on a table response with at
least six columns. -/
theorem fillDataFrame_table_success (cfg : ChartCfg) (st : ChartState) (sym : String)
    (rows : List (List ℚ)) (hw : 6 ≤ dfWidth rows) :
    fillDataFrame cfg st sym (Response.table rows) =
      (FillResult.ok { symbol := sym,
                       df := DF.proper (movingAverages (framify (rows.map (List.take 6)))) },
       requestParams cfg sym) := by
  simp only [fillDataFrame]
  rw [if_pos hw]

/-- Request issued by fillDataFrame: always the parameter dictionary
built from the stored configuration and the requested symbol. -/
theorem fillDataFrame_snd (cfg : ChartCfg) (st : ChartState) (sym : String)
    (resp : Response) :
    (fillDataFrame cfg st sym resp).2 = requestParams cfg sym := by
  cases resp with
  | transportError => rfl
  | unparseable => rfl
  | unframeable => rfl
  | table rows =>
      simp only [fillDataFrame]
      split <;> rfl

/-- Evaluation of Python upper() on the concrete input ETH. -/
theorem toUpper_ETH : "ETH".toUpper = "ETH" := by
  show String.map Char.toUpper ("ETH") = "ETH"
  rw [String.map_eq]
  decide

/-- Field std of movingAverages, through its own tp field. -/
theorem movingAverages_std_tp (f : Frame) :
    (movingAverages f).std = rollingStd 20 ((movingAverages f).tp) := rfl

/-- Field bolu of movingAverages, through its own tp and std fields. -/
theorem movingAverages_bolu_tp (f : Frame) :
    (movingAverages f).bolu = bandCol 2 ((movingAverages f).tp) ((movingAverages f).std) := rfl

/-- Field bold of movingAverages, through its own tp and std fields. -/
theorem movingAverages_bold_tp (f : Frame) :
    (movingAverages f).bold = bandCol (-2) ((movingAverages f).tp) ((movingAverages f).std) := rfl

/-- Length of the tp field of movingAverages. -/
theorem movingAverages_tp_length (f : Frame) :
    ((movingAverages f).tp).length = f.closeCol.length := by
  rw [movingAverages_tp, tpCol_length]

/-- C1: a fillDataFrame call whose response parses but carries only five
fields per record (the volume field is missing) returns normally with the
old symbol restored, yet the active table has been replaced by the
unnamed partial frame: the prior table is not retained, refuting the
claim that state is left completely unchanged.  The failing input is the
session st0 (symbol BTCUSDT with a proper table) and a one-record
five-column response. -/
theorem c1_state_corruption :
    (fillDataFrame (initCfg 0) st0 ("ETHUSDT") (Response.table [row5])).1 =
      FillResult.ok { symbol := "BTCUSDT", df := DF.raw [row5] } ∧
    DF.raw [row5] ≠ st0.df := by
  constructor
  · rfl
  · intro h
    rw [show st0.df = DF.proper (framify [[0, 1, 2, 3, 4, 5]]) from rfl] at h
    exact DF.noConfusion h

/-- C6 (amended): a ValueError failure — a response body that json.loads
rejects, or parsed JSON the DataFrame constructor rejects — is recovered
locally: the call returns normally and the session state (symbol and
table) is exactly the prior state.  A transport error, however, is not a
ValueError: the exception escapes fillDataFrame, with the active symbol
already overwritten by the requested one. -/
theorem c6_fetch_failure_scope (cfg : ChartCfg) (st : ChartState) (sym : String) :
    ((fillDataFrame cfg st sym Response.unparseable).1 = FillResult.ok st) ∧
    ((fillDataFrame cfg st sym Response.unframeable).1 = FillResult.ok st) ∧
    ((fillDataFrame cfg st sym Response.transportError).1 =
      FillResult.raised { symbol := sym, df := st.df }) :=
  ⟨rfl, rfl, rfl⟩

/-- C6 counterexample: at the concrete session st0 a transport-error
fetch for ETHUSDT lets the exception escape to the caller (the result is
a raised outcome, not a normal return), and the escaping state carries
the new symbol, not the old one: the failure is neither recovered
locally nor state-preserving. -/
theorem c6_counterexample :
    (fillDataFrame (initCfg 0) st0 ("ETHUSDT") Response.transportError).1 =
      FillResult.raised { symbol := "ETHUSDT", df := st0.df } ∧
    st0.symbol ≠ "ETHUSDT" := by
  constructor
  · rfl
  · decide

/-- C8 (amended): every request carries interval 1d and limit 1000, and
start/end times spanning exactly 1000 daily periods in milliseconds —
but the window ends at the session construction time t0, not at the time
of the individual fetch: every fetch reuses the parameters computed once
by the constructor. -/
theorem c8_request_parameters (t0 : ℤ) (sym : String) :
    ((requestParams (initCfg t0) sym).interval = "1d") ∧
    ((requestParams (initCfg t0) sym).limit = "1000") ∧
    ((requestParams (initCfg t0) sym).endTime - (requestParams (initCfg t0) sym).startTime
      = 1000 * 86400 * 1000) ∧
    ((requestParams (initCfg t0) sym).endTime = t0 * 1000) ∧
    (∀ st resp, (fillDataFrame (initCfg t0) st sym resp).2 = requestParams (initCfg t0) sym) := by
  refine ⟨rfl, rfl, ?_, rfl, ?_⟩
  · simp only [requestParams, initCfg]
    ring
  · intro st resp
    cases resp with
    | transportError => rfl
    | unparseable => rfl
    | unframeable => rfl
    | table rows =>
        simp only [fillDataFrame]
        split <;> rfl

/-- C8 counterexample: for a session constructed at time 0, a fetch
performed one day later (current time 86400 seconds) still issues
endTime 0, not 86400000 milliseconds: the lookback window does not end
at the current time of that fetch. -/
theorem c8_counterexample :
    (requestParams (initCfg 0) ("ETHUSDT")).endTime = 0 ∧
    (requestParams (initCfg 0) ("ETHUSDT")).endTime ≠ 86400 * 1000 := by
  constructor
  · decide
  · decide

/-- C9: movingAverages is idempotent — applying it to its own output
yields the identical eight indicator columns, because every indicator is
recomputed from the base columns, which it leaves untouched. -/
theorem c9_idempotence (f : Frame) :
    ((movingAverages (movingAverages f)).ma21 = (movingAverages f).ma21) ∧
    ((movingAverages (movingAverages f)).ma50 = (movingAverages f).ma50) ∧
    ((movingAverages (movingAverages f)).ma100 = (movingAverages f).ma100) ∧
    ((movingAverages (movingAverages f)).ma200 = (movingAverages f).ma200) ∧
    ((movingAverages (movingAverages f)).tp = (movingAverages f).tp) ∧
    ((movingAverages (movingAverages f)).std = (movingAverages f).std) ∧
    ((movingAverages (movingAverages f)).bolu = (movingAverages f).bolu) ∧
    ((movingAverages (movingAverages f)).bold = (movingAverages f).bold) :=
  ⟨rfl, rfl, rfl, rfl, rfl, rfl, rfl, rfl⟩

/-- C2: warm-up semantics — for every input table, positions 0 through
n-2 of each indicator column (windows 21/50/100/200 for the moving
averages and 20 for STD, BOLU, BOLD) hold the explicit missing marker,
and for a table with fewer than n rows the whole column is
missing-marked. -/
theorem c2_warmup_semantics (f : Frame) (i : Nat) :
    (i + 1 < 21 → (movingAverages f).ma21.getD i none = none) ∧
    (i + 1 < 50 → (movingAverages f).ma50.getD i none = none) ∧
    (i + 1 < 100 → (movingAverages f).ma100.getD i none = none) ∧
    (i + 1 < 200 → (movingAverages f).ma200.getD i none = none) ∧
    (i + 1 < 20 → (movingAverages f).std.getD i none = none) ∧
    (i + 1 < 20 → (movingAverages f).bolu.getD i none = none) ∧
    (i + 1 < 20 → (movingAverages f).bold.getD i none = none) ∧
    (f.closeCol.length < 21 → ∀ x ∈ (movingAverages f).ma21, x = none) ∧
    (f.closeCol.length < 50 → ∀ x ∈ (movingAverages f).ma50, x = none) ∧
    (f.closeCol.length < 100 → ∀ x ∈ (movingAverages f).ma100, x = none) ∧
    (f.closeCol.length < 200 → ∀ x ∈ (movingAverages f).ma200, x = none) ∧
    (f.closeCol.length < 20 → ∀ x ∈ (movingAverages f).std, x = none) ∧
    (f.closeCol.length < 20 → ∀ x ∈ (movingAverages f).bolu, x = none) ∧
    (f.closeCol.length < 20 → ∀ x ∈ (movingAverages f).bold, x = none) := by
  refine ⟨?_, ?_, ?_, ?_, ?_, ?_, ?_, ?_, ?_, ?_, ?_, ?_, ?_, ?_⟩
  · intro h; rw [movingAverages_ma21]; exact rollingMean_warmup 21 f.closeCol i h
  · intro h; rw [movingAverages_ma50]; exact rollingMean_warmup 50 f.closeCol i h
  · intro h; rw [movingAverages_ma100]; exact rollingMean_warmup 100 f.closeCol i h
  · intro h; rw [movingAverages_ma200]; exact rollingMean_warmup 200 f.closeCol i h
  · intro h; rw [movingAverages_std]; exact rollingStd_warmup 20 _ i h
  · intro h; rw [movingAverages_bolu]; exact bandCol_warmup 2 _ _ i h
  · intro h; rw [movingAverages_bold]; exact bandCol_warmup (-2) _ _ i h
  · intro h x hx; rw [movingAverages_ma21] at hx
    exact rollingMean_short 21 f.closeCol h x hx
  · intro h x hx; rw [movingAverages_ma50] at hx
    exact rollingMean_short 50 f.closeCol h x hx
  · intro h x hx; rw [movingAverages_ma100] at hx
    exact rollingMean_short 100 f.closeCol h x hx
  · intro h x hx; rw [movingAverages_ma200] at hx
    exact rollingMean_short 200 f.closeCol h x hx
  · intro h x hx; rw [movingAverages_std] at hx
    exact rollingStd_short 20 _ (by rw [tpCol_length]; omega) x hx
  · intro h x hx; rw [movingAverages_bolu] at hx
    exact bandCol_short 2 _ _ (by rw [tpCol_length]; omega) x hx
  · intro h x hx; rw [movingAverages_bold] at hx
    exact bandCol_short (-2) _ _ (by rw [tpCol_length]; omega) x hx

/-- C2 witness: on the concrete 25-row table, position 3 of every
indicator is missing, and the 50/100/200-window columns (windows larger
than the table) are missing everywhere. -/
theorem c2_witness :
    ((movingAverages f25).ma21.getD 3 none = none) ∧
    ((movingAverages f25).std.getD 3 none = none) ∧
    ((movingAverages f25).bolu.getD 3 none = none) ∧
    ((movingAverages f25).bold.getD 3 none = none) ∧
    (∀ x ∈ (movingAverages f25).ma50, x = none) ∧
    (∀ x ∈ (movingAverages f25).ma100, x = none) ∧
    (∀ x ∈ (movingAverages f25).ma200, x = none) := by
  obtain ⟨h1, h2, h3, h4, h5, h6, h7, h8, h9, h10, h11, h12, h13, h14⟩ :=
    c2_warmup_semantics f25 3
  exact ⟨h1 (by omega), h5 (by omega), h6 (by omega), h7 (by omega),
    h9 (by decide), h10 (by decide), h11 (by decide)⟩

/-- C3: moving-average correctness — at every row i past warm-up, the
n-window moving-average column equals the arithmetic mean of the close
values at rows i-n+1 through i, recomputed naively. -/
theorem c3_ma_value (f : Frame) (i : Nat) (hi : i < f.closeCol.length) :
    (21 ≤ i + 1 → (movingAverages f).ma21.getD i none = some (naiveMean f.closeCol 21 i)) ∧
    (50 ≤ i + 1 → (movingAverages f).ma50.getD i none = some (naiveMean f.closeCol 50 i)) ∧
    (100 ≤ i + 1 → (movingAverages f).ma100.getD i none = some (naiveMean f.closeCol 100 i)) ∧
    (200 ≤ i + 1 → (movingAverages f).ma200.getD i none = some (naiveMean f.closeCol 200 i)) := by
  refine ⟨?_, ?_, ?_, ?_⟩
  · intro h; rw [movingAverages_ma21]; exact rollingMean_getD_value 21 f.closeCol i h hi
  · intro h; rw [movingAverages_ma50]; exact rollingMean_getD_value 50 f.closeCol i h hi
  · intro h; rw [movingAverages_ma100]; exact rollingMean_getD_value 100 f.closeCol i h hi
  · intro h; rw [movingAverages_ma200]; exact rollingMean_getD_value 200 f.closeCol i h hi

/-- C3 witness: on the concrete 25-row table with close values 100..124,
the 21MA at row 20 is 110 and rows 0 through 19 of it are missing. -/
theorem c3_witness :
    ((movingAverages f25).ma21.getD 20 none = some 110) ∧
    (∀ j, j < 20 → (movingAverages f25).ma21.getD j none = none) := by
  constructor
  · have h := (c3_ma_value f25 20 (by decide)).1 (by omega)
    have h2 : naiveMean f25.closeCol 21 20 = 110 := by
      norm_num [naiveMean, f25, rows25, framify, List.map_map, List.range_succ]
    rw [h, h2]
  · decide

/-- C7: the callback qualifies a submitted symbol by upper-casing it and
appending USDT, invokes the fetcher with that pair, and on fetch success
installs it as the active symbol. -/
theorem c7_symbol_qualification (cfg : ChartCfg) (st : ChartState) (v : String)
    (rows : List (List ℚ)) (hw : 6 ≤ dfWidth rows) :
    ((displayCandleStick cfg st (some v) (Response.table rows)).2 =
      some (requestParams cfg (v.toUpper ++ "USDT"))) ∧
    ((requestParams cfg (v.toUpper ++ "USDT")).symbol = v.toUpper ++ "USDT") ∧
    (∃ st', (displayCandleStick cfg st (some v) (Response.table rows)).1 =
        FillResult.ok st' ∧ st'.symbol = v.toUpper ++ "USDT") := by
  refine ⟨?_, rfl, ?_⟩
  · show some (fillDataFrame cfg st (v.toUpper ++ "USDT") (Response.table rows)).2 = _
    rw [fillDataFrame_snd]
  · refine ⟨{ symbol := v.toUpper ++ "USDT",
              df := DF.proper (movingAverages (framify (rows.map (List.take 6)))) },
      ?_, rfl⟩
    show (fillDataFrame cfg st (v.toUpper ++ "USDT") (Response.table rows)).1 = _
    rw [fillDataFrame_table_success cfg st _ rows hw]

/-- C7 witness: submitting ETH issues a request for ETHUSDT and, on
success, makes ETHUSDT the active symbol. -/
theorem c7_witness :
    (6 ≤ dfWidth rows6E) ∧
    ((displayCandleStick (initCfg 0) st0 (some ("ETH")) (Response.table rows6E)).2 =
      some (requestParams (initCfg 0) ("ETHUSDT"))) ∧
    (∃ st', (displayCandleStick (initCfg 0) st0 (some ("ETH")) (Response.table rows6E)).1 =
        FillResult.ok st' ∧ st'.symbol = "ETHUSDT") := by
  have hu : "ETH".toUpper ++ "USDT" = "ETHUSDT" := by
    rw [toUpper_ETH]
    decide
  have h := c7_symbol_qualification (initCfg 0) st0 ("ETH") rows6E (by decide)
  refine ⟨by decide, ?_, ?_⟩
  · rw [h.1, hu]
  · obtain ⟨st', hst, hsym⟩ := h.2.2
    exact ⟨st', hst, by rw [hsym, hu]⟩

/-- C10: a callback invocation with a non-None symbol value always
refetches and replaces the active table with one freshly computed from
the response — for every prior state, including one whose active symbol
already equals the qualified pair — while an invocation with value None
issues no request and leaves the state unchanged. -/
theorem c10_always_refetch (cfg : ChartCfg) (st : ChartState) (v : String)
    (rows : List (List ℚ)) (hw : 6 ≤ dfWidth rows) :
    ((displayCandleStick cfg st (some v) (Response.table rows)).1 =
      FillResult.ok { symbol := v.toUpper ++ "USDT",
                      df := DF.proper (movingAverages (framify (rows.map (List.take 6)))) }) ∧
    ((displayCandleStick cfg st (some v) (Response.table rows)).2 =
      some (requestParams cfg (v.toUpper ++ "USDT"))) ∧
    (displayCandleStick cfg st none (Response.table rows) = (FillResult.ok st, none)) := by
  refine ⟨?_, ?_, rfl⟩
  · show (fillDataFrame cfg st (v.toUpper ++ "USDT") (Response.table rows)).1 = _
    rw [fillDataFrame_table_success cfg st _ rows hw]
  · show some (fillDataFrame cfg st (v.toUpper ++ "USDT") (Response.table rows)).2 = _
    rw [fillDataFrame_snd]

/-- C10 witness: with the active symbol already ETHUSDT and indicator
input unchanged, submitting ETH again still replaces the table with the
freshly fetched one, and a None submission leaves the state as is. -/
theorem c10_witness :
    (stSame.symbol = "ETH".toUpper ++ "USDT") ∧
    ((displayCandleStick (initCfg 0) stSame (some ("ETH")) (Response.table rows6E)).1 =
      FillResult.ok { symbol := "ETH".toUpper ++ "USDT",
                      df := DF.proper (movingAverages (framify (rows6E.map (List.take 6)))) }) ∧
    (displayCandleStick (initCfg 0) stSame none (Response.table rows6E) =
      (FillResult.ok stSame, none)) := by
  have h := c10_always_refetch (initCfg 0) stSame ("ETH") rows6E (by decide)
  refine ⟨?_, h.1, h.2.2⟩
  rw [toUpper_ETH]
  decide

/-- Values taken by the TP rolling mean, the STD column and the two
Bollinger band columns at a row past warm-up. -/
theorem bands_spec (f : Frame) (i : Nat) (h1 : 20 ≤ i + 1) (h2 : i < f.closeCol.length) :
    ((rollingMean 20 ((movingAverages f).tp)).getD i none =
      some (naiveMean ((movingAverages f).tp) 20 i)) ∧
    ((movingAverages f).std.getD i none =
      some (Real.sqrt
        ((sampleVar ((((movingAverages f).tp).drop (i + 1 - 20)).take 20) : ℚ) : ℝ))) ∧
    ((movingAverages f).bolu.getD i none =
      some ((naiveMean ((movingAverages f).tp) 20 i : ℝ) +
        2 * Real.sqrt
          ((sampleVar ((((movingAverages f).tp).drop (i + 1 - 20)).take 20) : ℚ) : ℝ))) ∧
    ((movingAverages f).bold.getD i none =
      some ((naiveMean ((movingAverages f).tp) 20 i : ℝ) +
        (-2) * Real.sqrt
          ((sampleVar ((((movingAverages f).tp).drop (i + 1 - 20)).take 20) : ℚ) : ℝ))) := by
  have h2t : i < ((movingAverages f).tp).length := by
    rw [movingAverages_tp_length]
    omega
  have hm := rollingMean_getD_value 20 ((movingAverages f).tp) i h1 h2t
  have hstd : (movingAverages f).std.getD i none =
      some (Real.sqrt
        ((sampleVar ((((movingAverages f).tp).drop (i + 1 - 20)).take 20) : ℚ) : ℝ)) := by
    rw [movingAverages_std_tp]
    exact rollingStd_getD_value 20 ((movingAverages f).tp) i h1 h2t
  refine ⟨hm, hstd, ?_, ?_⟩
  · rw [movingAverages_bolu_tp]
    exact bandCol_getD_value 2 _ _ i _ _ h2t hm hstd
  · rw [movingAverages_bold_tp]
    exact bandCol_getD_value (-2) _ _ i _ _ h2t hm hstd

/-- C4: Bollinger band relationship — at every row where BOLU, BOLD and
STD are all non-missing, BOLD is at most the 20-window rolling mean of
TP, which is at most BOLU, and BOLU minus BOLD equals exactly 4 times
STD. -/
theorem c4_bollinger (f : Frame) (i : Nat)
    (hu : (movingAverages f).bolu.getD i none ≠ none)
    (hd : (movingAverages f).bold.getD i none ≠ none)
    (hs : (movingAverages f).std.getD i none ≠ none) :
    (((movingAverages f).bold.getD i none).getD 0 ≤
      ((((rollingMean 20 ((movingAverages f).tp)).getD i none).getD 0 : ℚ) : ℝ)) ∧
    (((((rollingMean 20 ((movingAverages f).tp)).getD i none).getD 0 : ℚ) : ℝ) ≤
      ((movingAverages f).bolu.getD i none).getD 0) ∧
    (((movingAverages f).bolu.getD i none).getD 0 -
      ((movingAverages f).bold.getD i none).getD 0 =
      4 * ((movingAverages f).std.getD i none).getD 0) := by
  have h1 : 20 ≤ i + 1 := by
    by_contra hlt
    exact hu (by rw [movingAverages_bolu]; exact bandCol_warmup 2 _ _ i (by omega))
  have h2 : i < f.closeCol.length := by
    by_contra hge
    apply hu
    have hlen : ¬ i < (tpCol f.closeCol f.highCol f.lowCol).length := by
      rw [tpCol_length]
      omega
    rw [movingAverages_bolu, bandCol, range_map_getD, if_neg hlen]
  obtain ⟨hm, hstd, hbu, hbd⟩ := bands_spec f i h1 h2
  rw [hm, hstd, hbu, hbd]
  simp only [Option.getD_some]
  have hnn := Real.sqrt_nonneg
    ((sampleVar ((((movingAverages f).tp).drop (i + 1 - 20)).take 20) : ℚ) : ℝ)
  refine ⟨?_, ?_, ?_⟩
  · linarith
  · linarith
  · ring

/-- C4 witness: on the concrete 20-row table, row 19 has all three
columns non-missing and the band width there is four standard
deviations. -/
theorem c4_witness :
    ((movingAverages f20).bolu.getD 19 none ≠ none) ∧
    ((movingAverages f20).bold.getD 19 none ≠ none) ∧
    ((movingAverages f20).std.getD 19 none ≠ none) ∧
    (((movingAverages f20).bolu.getD 19 none).getD 0 -
      ((movingAverages f20).bold.getD 19 none).getD 0 =
      4 * ((movingAverages f20).std.getD 19 none).getD 0) := by
  obtain ⟨hm, hstd, hbu, hbd⟩ := bands_spec f20 19 (by omega) (by decide)
  refine ⟨?_, ?_, ?_, ?_⟩
  · rw [hbu]; exact Option.some_ne_none _
  · rw [hbd]; exact Option.some_ne_none _
  · rw [hstd]; exact Option.some_ne_none _
  · exact (c4_bollinger f20 19
      (by rw [hbu]; exact Option.some_ne_none _)
      (by rw [hbd]; exact Option.some_ne_none _)
      (by rw [hstd]; exact Option.some_ne_none _)).2.2

/-- C5: the TP column is the per-row typical price (high + low + close)
divided by 3 with no window, and past warm-up the STD column is the
unbiased (n-1 denominator) sample standard deviation of the TP values
over the trailing 20 rows including the current row. -/
theorem c5_tp_std (f : Frame) (i : Nat) (hi : i < f.closeCol.length) :
    ((movingAverages f).tp.getD i 0 =
      (f.highCol.getD i 0 + f.lowCol.getD i 0 + f.closeCol.getD i 0) / 3) ∧
    (20 ≤ i + 1 → (movingAverages f).std.getD i none =
      some (trailingSampleStd ((movingAverages f).tp) i)) := by
  constructor
  · rw [movingAverages_tp, tpCol, range_map_getD_rat f.closeCol.length _ i hi]
    ring
  · intro h1
    have h2t : i < ((movingAverages f).tp).length := by
      rw [movingAverages_tp_length]
      omega
    rw [movingAverages_std_tp, rollingStd_getD_value 20 _ i h1 h2t]
    have hw : ((((movingAverages f).tp).drop (i + 1 - 20)).take 20) =
        trailing ((movingAverages f).tp) 20 i := by
      rw [trailing]
      exact take_drop_eq _ (i + 1 - 20) 20 (by omega)
    rw [hw, trailingSampleStd]
    congr 1
    norm_cast
    have hlen : (trailing ((movingAverages f).tp) 20 i).length = 20 := by
      rw [trailing]
      simp
    rw [sampleVar, hlen]
    norm_num

/-- C5 witness: on the concrete 20-row table, the typical price at row
19 is the row mean of high, low and close, and the STD at row 19 is the
trailing sample standard deviation of TP. -/
theorem c5_witness :
    ((movingAverages f20).tp.getD 19 0 =
      (f20.highCol.getD 19 0 + f20.lowCol.getD 19 0 + f20.closeCol.getD 19 0) / 3) ∧
    ((movingAverages f20).std.getD 19 none =
      some (trailingSampleStd ((movingAverages f20).tp) 19)) :=
  ⟨(c5_tp_std f20 19 (by decide)).1, (c5_tp_std f20 19 (by decide)).2 (by omega)⟩
